import Mathlib

/-!
Verification development for the RESUME wellbeing dashboard (src/app.py).

The tabular data model, the filter engine (`apply_filters`), record
validation and insertion (`validate_entry_data`, `insert_entry`), the
loader (`load_data`), the Kaplan-Meier entry point, the export path and
the recent-entries management path are embedded as executable Lean
definitions, and the behavioural claims about them are proved below.

Modelling conventions:
- pandas cell values are `CVal`: an integer, a string, or `na` (NaN/NULL).
  Floating point does not occur on the verified paths: the numeric columns
  of the SQLite schema are INTEGER.
- Timestamps are represented by their source string (a pandas `Timestamp`
  compares equal to the string it was parsed from, so equality claims are
  unaffected); `pd.to_datetime` is therefore the identity on the model,
  recorded only in the column dtype.
- Exceptions are `Except String`; the error payloads stand for the Python
  exception messages and are not modelled verbatim.
-/

/-- Dtype of a pandas column: `obj` (text), `i64` (integer), `dt`
(datetime64, produced by `pd.to_datetime` on `Observation_Date`). -/
inductive Dtype
  | obj
  | i64
  | dt
deriving DecidableEq

/-- Cell value of an in-memory table: integer, string, or missing (NaN). -/
inductive CVal
  | int (n : Int)
  | str (s : String)
  | na
deriving DecidableEq

/-- Column of a pandas DataFrame: name and dtype. -/
structure Column where
  name : String
  dtype : Dtype
deriving DecidableEq

/-- In-memory table (pandas DataFrame): columns and rows of cells. -/
structure DataFrame where
  cols : List Column
  rows : List (List CVal)
deriving DecidableEq

/-- String representation of a cell, as `Series.astype(str)` produces it:
NaN stringifies to "nan". -/
def cellStr : CVal → String
  | .int n => toString n
  | .str s => s
  | .na => "nan"

/-- Position of the column named `k` (pandas label lookup). -/
def colIdxOf (k : String) : List Column → Option Nat
  | [] => none
  | c :: cs => if c.name = k then some 0 else (colIdxOf k cs).map (· + 1)

/-- Cell of row `r` in the column of `df` named `k`. -/
def dfCell (df : DataFrame) (r : List CVal) (k : String) : Option CVal :=
  match colIdxOf k df.cols with
  | some i => r.get? i
  | none => none

/-! ## Regular-expression fragment

`Series.str.contains(term, case=False, na=False)` interprets the search
term as a regular expression (`regex=True` is the pandas default) and
tests `re.search` with `re.IGNORECASE`.  The fragment modelled here covers
terms built from literal characters, the wildcard `.` and the quantifiers
`*`, `+`, `?` applied to a single atom.  Other metacharacters, and a
quantifier with nothing (or another quantifier) before it, parse to an
error, mirroring `re.error` for the malformed cases and marking the rest
as outside the modelled fragment. -/

/-- Left brace character (written via its code point). -/
def lbraceChar : Char := Char.ofNat 123

/-- Right brace character (written via its code point). -/
def rbraceChar : Char := Char.ofNat 125

/-- Metacharacters whose constructs are not part of the modelled regex
fragment. -/
def metachars : List Char :=
  ['\\', '[', ']', '(', ')', lbraceChar, rbraceChar, '^', '$', '|']

/-- Regex atom: a literal character or the wildcard dot. -/
inductive RAtom
  | lit (c : Char)
  | dot
deriving DecidableEq

/-- Regex piece: an atom, possibly under a quantifier. -/
inductive RPiece
  | once (a : RAtom)
  | star (a : RAtom)
  | plus (a : RAtom)
  | opt (a : RAtom)
deriving DecidableEq

/-- Quantifier characters. -/
def isQuant (c : Char) : Bool := c = '*' || c = '+' || c = '?'

/-- Parse the search term into regex pieces (accumulator is reversed). -/
def parseRegexAux : List Char → List RPiece → Except String (List RPiece)
  | [], acc => .ok acc.reverse
  | c :: cs, acc =>
    if c ∈ metachars then .error "unsupported metacharacter"
    else if c = '.' then parseRegexAux cs (.once .dot :: acc)
    else if isQuant c then
      match acc with
      | .once a :: rest =>
        let p := if c = '*' then RPiece.star a
                 else if c = '+' then RPiece.plus a
                 else RPiece.opt a
        parseRegexAux cs (p :: rest)
      | _ => .error "nothing to repeat"
    else parseRegexAux cs (.once (.lit c) :: acc)

/-- Parse a search term as a regular expression over the modelled
fragment. -/
def parseRegex (s : String) : Except String (List RPiece) :=
  parseRegexAux s.data []

/-- Atom match against one character, case-insensitively
(`re.IGNORECASE`); `.` does not match a newline. -/
def atomMatch (a : RAtom) (c : Char) : Bool :=
  match a with
  | .dot => c ≠ '\n'
  | .lit l => l.toLower = c.toLower

/-- Whether the pattern accepts the empty string. -/
def emptyMatch : List RPiece → Bool
  | [] => true
  | .once _ :: _ => false
  | .plus _ :: _ => false
  | .star _ :: ps => emptyMatch ps
  | .opt _ :: ps => emptyMatch ps

/-- One backtracking step on a non-empty string whose head is `c`:
`deeper ps` matches `ps` against the tail.  A quantified atom either is
skipped (recursing on the pattern, same string) or consumes `c`. -/
def consMatch (c : Char) (deeper : List RPiece → Bool) : List RPiece → Bool
  | [] => true
  | .once a :: ps => atomMatch a c && deeper ps
  | .star a :: ps => consMatch c deeper ps || (atomMatch a c && deeper (.star a :: ps))
  | .plus a :: ps => atomMatch a c && deeper (.star a :: ps)
  | .opt a :: ps => consMatch c deeper ps || (atomMatch a c && deeper ps)

/-- Match the pieces against a prefix of the character list
(backtracking). -/
def matchHere : List Char → List RPiece → Bool
  | [], ps => emptyMatch ps
  | c :: cs, ps => consMatch c (matchHere cs) ps

/-- Search: does the pattern match starting at any position
(`re.search`)? -/
def searchFrom (pat : List RPiece) : List Char → Bool
  | [] => matchHere [] pat
  | c :: cs => matchHere (c :: cs) pat || searchFrom pat cs

/-- Whether `re.search(pat, hay)` finds a match. -/
def reSearch (pat : List RPiece) (hay : String) : Bool :=
  searchFrom pat hay.data

/-! ## Filter engine (`apply_filters`, src/app.py lines 610-633)

`display_database_front` passes `locals()` as `filter_vars`; the widget
variables that can be bound there are the seven below.  `apply_filters`
itself consults only `age_range` and `selected_genders` (the comment in
the source reads "Add more filters as needed"). -/

/-- Filter criteria handed to `apply_filters` as `filter_vars`: a field is
`none` when the corresponding widget variable is not bound in the caller's
locals. -/
structure FilterVars where
  age_range : Option (Int × Int) := none
  selected_genders : Option (List String) := none
  selected_roles : Option (List String) := none
  selected_departments : Option (List String) := none
  risk_level : Option (Int × Int) := none
  crisis_filter : Option (List Int) := none
deriving DecidableEq

/-- Criteria set with nothing active (empty `locals`). -/
def noCriteria : FilterVars := {}

/-- Indices of the object-dtype columns, offset by `i`
(`select_dtypes(include=['object'])`). -/
def objIdxsAux (i : Nat) : List Column → List Nat
  | [] => []
  | c :: cs =>
    if c.dtype = .obj then i :: objIdxsAux (i + 1) cs else objIdxsAux (i + 1) cs

/-- Indices of the object-dtype (text) columns of a table. -/
def objIdxs (df : DataFrame) : List Nat := objIdxsAux 0 df.cols

/-- Numeric `value >= x` as pandas evaluates it on a cell: NaN compares
false.  (A string cell in a numeric comparison is outside the
well-formed tables `WFTable` the comparison theorems range over.) -/
def cvalGE (v : CVal) (x : Int) : Bool :=
  match v with
  | .int n => x ≤ n
  | _ => false

/-- Numeric `value <= x` on a cell; NaN compares false. -/
def cvalLE (v : CVal) (x : Int) : Bool :=
  match v with
  | .int n => n ≤ x
  | _ => false

/-- `Series.isin(sel)` on one cell: string membership; NaN is not in the
list; a non-string cell never equals a string of the list. -/
def cvalIsin (v : CVal) (sel : List String) : Bool :=
  match v with
  | .str s => sel.contains s
  | _ => false

/-- Free-text stage of `apply_filters`: when the term is non-empty, OR
together `str.contains(term, case=False, na=False)` over the object
columns and keep the rows where the mask is true.  With no object column
the mask stays all-false (every row dropped) and the pattern is never
compiled; otherwise a pattern outside the modelled fragment surfaces as
an error, as `re.error` would. -/
def applyText (df : DataFrame) (term : String) : Except String DataFrame :=
  if term = "" then .ok df
  else
    match objIdxs df, parseRegex term with
    | [], _ => .ok { df with rows := [] }
    | _ :: _, .error e => .error e
    | o :: os, .ok pat =>
      .ok { df with
            rows := df.rows.filter fun r =>
              (o :: os).any fun i => reSearch pat (cellStr (r.getD i CVal.na)) }

/-- Age-range stage: `filtered_df[(filtered_df['Age'] >= lo) &
(filtered_df['Age'] <= hi)]`.  The label lookup `filtered_df['Age']`
raises `KeyError` when the column is absent. -/
def applyAge (df : DataFrame) (ar : Option (Int × Int)) :
    Except String DataFrame :=
  match ar with
  | none => .ok df
  | some (lo, hi) =>
    match colIdxOf "Age" df.cols with
    | none => .error "KeyError: Age"
    | some i =>
      .ok { df with
            rows := df.rows.filter fun r =>
              cvalGE (r.getD i CVal.na) lo && cvalLE (r.getD i CVal.na) hi }

/-- Gender stage: `filtered_df[filtered_df['Sex'].isin(selected_genders)]`;
the label lookup raises `KeyError` when the column is absent. -/
def applyGenders (df : DataFrame) (sg : Option (List String)) :
    Except String DataFrame :=
  match sg with
  | none => .ok df
  | some sel =>
    match colIdxOf "Sex" df.cols with
    | none => .error "KeyError: Sex"
    | some i =>
      .ok { df with
            rows := df.rows.filter fun r => cvalIsin (r.getD i CVal.na) sel }

/-- The filter engine `apply_filters(df, search_term, filter_vars)`:
text search, then the age range, then the gender set.  The remaining
criteria collected by the caller are never consulted. -/
def apply_filters (df : DataFrame) (search_term : String) (fv : FilterVars) :
    Except String DataFrame :=
  match applyText df search_term with
  | .error e => .error e
  | .ok d1 =>
    match applyAge d1 fv.age_range with
    | .error e => .error e
    | .ok d2 => applyGenders d2 fv.selected_genders

/-- Row-level reading of the text stage: the row passes when the term is
empty, or when the pattern matches the string form of some text cell. -/
def rowPassText (df : DataFrame) (term : String) (r : List CVal) : Bool :=
  if term = "" then true
  else
    match objIdxs df, parseRegex term with
    | [], _ => false
    | _ :: _, .error _ => false
    | o :: os, .ok pat =>
      (o :: os).any fun i => reSearch pat (cellStr (r.getD i CVal.na))

/-- Row-level reading of the age stage. -/
def rowPassAge (df : DataFrame) (ar : Option (Int × Int)) (r : List CVal) :
    Bool :=
  match ar with
  | none => true
  | some (lo, hi) =>
    match colIdxOf "Age" df.cols with
    | none => false
    | some i => cvalGE (r.getD i CVal.na) lo && cvalLE (r.getD i CVal.na) hi

/-- Row-level reading of the gender stage. -/
def rowPassSex (df : DataFrame) (sg : Option (List String)) (r : List CVal) :
    Bool :=
  match sg with
  | none => true
  | some sel =>
    match colIdxOf "Sex" df.cols with
    | none => false
    | some i => cvalIsin (r.getD i CVal.na) sel

/-- Cell/dtype agreement: an `obj` cell is a string or NaN, an `i64` cell
an integer or NaN, a `dt` cell a (timestamp) string or NaN. -/
def cellWF : Dtype → CVal → Bool
  | _, .na => true
  | .obj, .str _ => true
  | .obj, _ => false
  | .i64, .int _ => true
  | .i64, _ => false
  | .dt, .str _ => true
  | .dt, _ => false

/-- Row shape and typing against the column list. -/
def rowWF (cs : List Column) (r : List CVal) : Bool :=
  r.length = cs.length && (cs.zip r).all fun p => cellWF p.1.dtype p.2

/-- Well-formed table: every row typed against the columns.  Theorems
about numeric comparisons and set membership range over well-formed
tables, where the pandas operations are total. -/
def WFTable (df : DataFrame) : Bool := df.rows.all (rowWF df.cols)

/-! ## Record entry and storage (src/app.py lines 62-75 and 178-198)

An entry record is the Python dict handed to `insert_entry`
(`prepare_entry_data` builds it with string keys and int/str values); the
record store is the list of inserted dicts, in insertion order. -/

/-- Entry record: association list standing for the Python dict (keys
unique by construction of a dict). -/
abbrev EntryDict := List (String × CVal)

/-- Database state: the rows of the `resume_data` table, in rowid order. -/
abbrev DBState := List EntryDict

/-- Dict lookup `data.get(k)` / `data[k]`: first binding of the key. -/
def lookupField (d : EntryDict) (k : String) : Option CVal :=
  match d with
  | [] => none
  | (k', v) :: rest => if k' = k then some v else lookupField rest k

/-- Python truthiness of `data.get(field)`: absent and `None` are falsy,
`0` and the empty string are falsy. -/
def truthy : Option CVal → Bool
  | none => false
  | some (.int n) => n ≠ 0
  | some (.str s) => s ≠ ""
  | some .na => false

/-- Fields `validate_entry_data` requires, in the order of its loop. -/
def requiredFields : List String :=
  ["Age", "Sex", "Employment_Status", "Healthcare_Role"]

/-- First required field whose value is falsy, scanning in loop order. -/
def firstMissing (fs : List String) (d : EntryDict) : Option String :=
  match fs with
  | [] => none
  | f :: rest => if truthy (lookupField d f) then firstMissing rest d else some f

/-- Validation (`validate_entry_data`): the `Age` range check runs first
(`data['Age']` raising `KeyError` on an absent key, or `TypeError` on a
non-integer value, is caught by the surrounding `except` and reported as
`(False, str(e))`; the exact exception text is not modelled), then each
required field must be truthy. -/
def validate_entry_data (d : EntryDict) : Bool × String :=
  match lookupField d "Age" with
  | none => (false, "KeyError")
  | some (.str _) => (false, "TypeError")
  | some .na => (false, "TypeError")
  | some (.int a) =>
    if a < 18 ∨ 100 < a then (false, "Age must be between 18 and 100")
    else
      match firstMissing requiredFields d with
      | some f => (false, f ++ " is required")
      | none => (true, "")

/-- Columns of the `resume_data` table after `id`, in the order of
`create_database`, with the dtypes pandas assigns them on load
(INTEGER columns load as `i64`, TEXT as `obj`, and `Observation_Date`
becomes `dt` through `pd.to_datetime`). -/
def loadDataCols : List Column :=
  [⟨"Age", .i64⟩, ⟨"Sex", .obj⟩, ⟨"Employment_Status", .obj⟩,
   ⟨"Income_Level", .obj⟩, ⟨"Social_Deprivation", .i64⟩,
   ⟨"Material_Deprivation", .i64⟩,
   ⟨"Healthcare_Role", .obj⟩, ⟨"Department", .obj⟩,
   ⟨"Years_Experience", .i64⟩, ⟨"Weekly_Hours", .i64⟩,
   ⟨"Night_Shifts_Monthly", .i64⟩, ⟨"Overtime_Hours_Monthly", .i64⟩,
   ⟨"Patient_Facing", .obj⟩, ⟨"Management_Responsibilities", .obj⟩,
   ⟨"Work_Stress_Level", .i64⟩, ⟨"Job_Satisfaction", .i64⟩,
   ⟨"Workplace_Support", .i64⟩, ⟨"Burnout_Level", .i64⟩,
   ⟨"Sick_Days_Last_Year", .i64⟩, ⟨"Workplace_Incidents", .i64⟩,
   ⟨"Recent_Promotion", .obj⟩, ⟨"Recent_Demotion", .obj⟩,
   ⟨"MH_Disorders", .obj⟩, ⟨"Substance_Use_Disorders", .obj⟩,
   ⟨"History_Suicidal_Ideation", .i64⟩, ⟨"Previous_Suicide_Attempts", .i64⟩,
   ⟨"Frequency_Suicidal_Thoughts", .i64⟩,
   ⟨"Intensity_Suicidal_Thoughts", .i64⟩,
   ⟨"Chronic_Illnesses", .obj⟩, ⟨"GP_Visits", .i64⟩, ⟨"ED_Visits", .i64⟩,
   ⟨"Hospitalizations", .i64⟩,
   ⟨"Hopelessness", .i64⟩, ⟨"Despair", .i64⟩, ⟨"Impulsivity", .i64⟩,
   ⟨"Aggression", .i64⟩, ⟨"Access_Lethal_Means", .i64⟩,
   ⟨"Social_Isolation", .i64⟩,
   ⟨"Coping_Strategies", .i64⟩, ⟨"Measured_Resilience", .i64⟩,
   ⟨"MH_Service_Engagement", .i64⟩, ⟨"Supportive_Relationships", .i64⟩,
   ⟨"Suicidal_Distress", .i64⟩, ⟨"Time_To_Crisis", .i64⟩,
   ⟨"Crisis_Event", .i64⟩, ⟨"Observation_Date", .dt⟩]

/-- Names of the data columns (the INSERT target columns). -/
def schemaDataCols : List String := loadDataCols.map (·.name)

/-- Insertion (`insert_entry`): validate, then run the INSERT built from
the dict's keys.  A key outside the schema makes the INSERT fail with
`sqlite3.Error` (caught, `False` returned, nothing written); otherwise
the row is appended and the call returns `True`. -/
def insert_entry (d : EntryDict) (db : DBState) : Bool × DBState :=
  if (validate_entry_data d).1 then
    if d.all (fun kv => schemaDataCols.contains kv.1) then (true, db ++ [d])
    else (false, db)
  else (false, db)

/-! ## Loader (`load_data`, src/app.py lines 156-175) -/

/-- The loaded row of the `i`-th stored entry (rowids assigned in
insertion order): the `id` cell, then each schema column's value from the
dict, NULL (NaN) when the key is absent. -/
def rowOfEntry (i : Nat) (e : EntryDict) : List CVal :=
  .int (Int.ofNat i + 1) ::
    schemaDataCols.map fun c => (lookupField e c).getD CVal.na

/-- Loaded rows of the stored entries, starting at rowid `i + 1`. -/
def loadRowsAux (i : Nat) : DBState → List (List CVal)
  | [] => []
  | e :: es => rowOfEntry i e :: loadRowsAux (i + 1) es

/-- The full column list of a loaded table: `id`, then the data columns
(`pd.to_datetime` retags `Observation_Date` as datetime; on the model a
timestamp is carried as its source string, so the cell conversions of
`load_data` are the identity). -/
def loadCols : List Column := ⟨"id", .i64⟩ :: loadDataCols

/-- The `pd.DataFrame()` returned on a failed load: no columns, no rows. -/
def emptyDataFrame : DataFrame := ⟨[], []⟩

/-- Loading (`load_data`): the argument is the outcome of the read from
storage (`.error` when connecting, querying or converting raised).  Any
exception yields the empty `pd.DataFrame()`; a successful read yields the
table with the schema's columns and one row per stored entry. -/
def load_data (dbRead : Except String DBState) : DataFrame :=
  match dbRead with
  | .error _ => emptyDataFrame
  | .ok entries => ⟨loadCols, loadRowsAux 0 entries⟩

/-! ## Kaplan-Meier entry point (src/app.py lines 408-420) -/

/-- Outcome of `display_kaplan_meier_analysis`: either the estimator was
fitted on the given duration and event series, or the branch that warns
"Required data for Kaplan-Meier analysis is not available." ran. -/
inductive KMResult
  | fitted (durations events : List CVal)
  | unavailable
deriving DecidableEq

/-- Column-presence test (`'name' in df.columns`). -/
def hasCol (df : DataFrame) (k : String) : Bool :=
  (colIdxOf k df.cols).isSome

/-- All values of the column named `k`, one per row. -/
def colValues (df : DataFrame) (k : String) : List CVal :=
  df.rows.map fun r => (dfCell df r k).getD CVal.na

/-- The Kaplan-Meier branch of the dashboard: the only guard is the
presence of both columns; `kmf.fit` then receives the two full columns,
with no row dropped and no emptiness check. -/
def display_kaplan_meier_analysis (df : DataFrame) : KMResult :=
  if hasCol df "Time_To_Crisis" ∧ hasCol df "Crisis_Event" then
    .fitted (colValues df "Time_To_Crisis") (colValues df "Crisis_Event")
  else .unavailable

/-- Modelled from the spec wording of claim C7 (and spec section 4.2, for
comparison against the code): drop the rows with a missing value in
either column before fitting, and report insufficient data when a column
is absent or no complete row remains. -/
def kmClaimResult (df : DataFrame) : KMResult :=
  if hasCol df "Time_To_Crisis" ∧ hasCol df "Crisis_Event" then
    let complete := df.rows.filter fun r =>
      (dfCell df r "Time_To_Crisis").getD CVal.na ≠ CVal.na &&
        (dfCell df r "Crisis_Event").getD CVal.na ≠ CVal.na
    if complete.isEmpty then .unavailable
    else
      .fitted
        (complete.map fun r => (dfCell df r "Time_To_Crisis").getD CVal.na)
        (complete.map fun r => (dfCell df r "Crisis_Event").getD CVal.na)
  else .unavailable

/-! ## Export path (src/app.py lines 667-708 and 1295-1341)

`export_data` is defined twice at module level; the later definition
(lines 1295-1341) rebinds the name, so it is the one every call reaches.
Its format radio offers only CSV and Excel, and it serializes the frame
it is handed (`df.copy()`), ignoring its `selected_columns` argument.
The shadowed first definition (lines 667-708) offered CSV, Excel and
JSON.  The effective caller `display_filtered_results` (also the later
of two definitions, lines 1252-1293) restricts the filtered table to the
selected columns and stringifies every cell before handing it over. -/

/-- Formats offered by the radio of the shadowed first `export_data`. -/
def export_data_v1_formats : List String := ["CSV", "Excel", "JSON"]

/-- Formats offered by the radio of the effective (later) `export_data`. -/
def export_data_formats : List String := ["CSV", "Excel"]

/-- Payload a download button would receive. -/
inductive ExportPayload
  | csv (text : String)
  | excel (df : DataFrame)
deriving DecidableEq

/-- Join strings with a separator. -/
def joinSep (sep : String) : List String → String
  | [] => ""
  | [x] => x
  | x :: y :: xs => x ++ sep ++ joinSep sep (y :: xs)

/-- One CSV cell as `DataFrame.to_csv` renders it: NaN becomes the empty
field (quoting of separators is outside the modelled fragment). -/
def csvCell : CVal → String
  | .int n => toString n
  | .str s => s
  | .na => ""

/-- `df.to_csv(index=False)`: header line, then one line per row. -/
def to_csv (df : DataFrame) : String :=
  joinSep "," (df.cols.map (·.name)) ++ "\n" ++
    String.join (df.rows.map fun r => joinSep "," (r.map csvCell) ++ "\n")

/-- Positions of the selected labels (`df[selected_columns]` resolves
every label and raises `KeyError` when one is absent). -/
def colIdxList (cs : List Column) : List String → Option (List Nat)
  | [] => some []
  | k :: ks =>
    match colIdxOf k cs, colIdxList cs ks with
    | some i, some is => some (i :: is)
    | _, _ => none

/-- Column restriction `df[selected_columns]`: the selected columns in
the selected order, each row projected accordingly. -/
def restrictCols (df : DataFrame) (sel : List String) :
    Except String DataFrame :=
  match colIdxList df.cols sel with
  | none => .error "KeyError"
  | some idxs =>
    .ok ⟨idxs.map fun i => df.cols.getD i ⟨"", .obj⟩,
         df.rows.map fun r => idxs.map fun i => r.getD i CVal.na⟩

/-- Cell stringification of `display_filtered_results`: datetime columns
through `strftime` (identity on the string-carried timestamps of the
model), every other column through `astype(str)`. -/
def stringifyDF (df : DataFrame) : DataFrame :=
  ⟨df.cols.map fun c => ⟨c.name, Dtype.obj⟩,
   df.rows.map fun r => r.map fun v => CVal.str (cellStr v)⟩

/-- The frame `display_filtered_results` builds and hands to
`export_data`: the filtered view restricted to the selected columns,
stringified. -/
def display_view (filtered : DataFrame) (sel : List String) :
    Except String DataFrame :=
  match restrictCols filtered sel with
  | .error e => .error e
  | .ok v => .ok (stringifyDF v)

/-- The effective `export_data` on a chosen format: only the offered
formats produce a payload, and the exported frame is exactly the one
passed in (`export_df = df.copy()`). -/
def export_data (df : DataFrame) (fmt : String) : Option ExportPayload :=
  if fmt = "CSV" then some (.csv (to_csv df))
  else if fmt = "Excel" then some (.excel df)
  else none

/-! ## Recent-entries management (src/app.py lines 1344-1376)

Inside `display_recent_entries_management`, the statement
`recent_data = get_latest_entries(20)` precedes the nested
`def get_latest_entries(...)`.  Because the nested `def` makes
`get_latest_entries` a local variable of the enclosing function, the
reference evaluates before the binding statement has executed and raises
`UnboundLocalError`, which the surrounding `except` catches. -/

/-- Local names bound when `recent_data = get_latest_entries(20)`
evaluates: the nested `def` on the following line has not yet run. -/
def localsAtCall : List String := []

/-- Outcome of one invocation of `display_recent_entries_management`. -/
inductive RecentOutcome
  | errorLoading
  | noEntries
  | shown
  | saved
deriving DecidableEq

/-- Bulk replace (`update_database_entries`): `to_sql(..., 
if_exists='replace')` swaps the whole stored table for the given rows. -/
def update_database_entries (df : List EntryDict) (_db : DBState) : DBState :=
  df

/-- Timestamp string of an entry, for the `ORDER BY Observation_Date
DESC` of the (dead) fetch helper. -/
def obsDate (e : EntryDict) : String :=
  cellStr ((lookupField e "Observation_Date").getD CVal.na)

/-- The fetch the nested helper would perform: latest `n` entries by
observation date. -/
def latestEntries (n : Nat) (db : DBState) : List EntryDict :=
  (db.mergeSort fun a b => decide (obsDate b ≤ obsDate a)).take n

/-- One invocation of `display_recent_entries_management` on the stored
table, with the edits the grid would submit and whether Save was pressed.
The guard is the scoping fact: the helper's name is unbound at its call
site, so the `except` branch runs and the else-branch (fetch, edit,
`update_database_entries`) is dead code. -/
def display_recent_entries_management (db : DBState) (edits : List EntryDict)
    (save : Bool) : RecentOutcome × DBState :=
  if localsAtCall.contains "get_latest_entries" then
    let recent := latestEntries 20 db
    if recent.isEmpty then (.noEntries, db)
    else if save then (.saved, update_database_entries edits db)
    else (.shown, db)
  else (.errorLoading, db)

/-- Whether the first character list leads the second. -/
def leadsWith : List Char → List Char → Bool
  | [], _ => true
  | _ :: _, [] => false
  | n :: ns, h :: hs => n = h && leadsWith ns hs

/-- Whether the first character list occurs contiguously in the second. -/
def occursIn (ns : List Char) : List Char → Bool
  | [] => leadsWith ns []
  | h :: hs => leadsWith ns (h :: hs) || occursIn ns hs

/-- Case-insensitive substring test, the relation claim C4 asserts the
text filter uses (stated from the claim's words, for comparison with the
regex behaviour of the code). -/
def substrCI (hay needle : String) : Bool :=
  occursIn (needle.data.map Char.toLower) (hay.data.map Char.toLower)

deriving instance DecidableEq for Except

/-- Whether an exception-valued computation succeeded. -/
def exceptOk {ε α : Type} : Except ε α → Bool
  | .ok _ => true
  | .error _ => false

/-! ## Concrete inputs used by witnesses and counterexamples -/

/-- Valid entry record: Age 30 and all required fields present. -/
def exEntryOk : EntryDict :=
  [("Age", .int 30), ("Sex", .str "F"), ("Employment_Status", .str "Full-time"),
   ("Healthcare_Role", .str "Nurse")]

/-- Entry record with Age 12, outside [18, 100]. -/
def exEntryYoung : EntryDict := [("Age", .int 12), ("Sex", .str "F")]

/-- One-column text table with the single row "xyz". -/
def exDfNotes : DataFrame := ⟨[⟨"Notes", Dtype.obj⟩], [[.str "xyz"]]⟩

/-- Table with Age, Sex and Healthcare_Role columns and one row holding a
Nurse. -/
def exDfStaff : DataFrame :=
  ⟨[⟨"Age", Dtype.i64⟩, ⟨"Sex", Dtype.obj⟩, ⟨"Healthcare_Role", Dtype.obj⟩],
   [[.int 30, .str "F", .str "Nurse"]]⟩

/-- The row of `exDfStaff`. -/
def exRowStaff : List CVal := [.int 30, .str "F", .str "Nurse"]

/-- Criteria with only a Healthcare_Role selection active. -/
def exFvRoles : FilterVars := { selected_roles := some ["Doctor"] }

/-- Table without an Age column. -/
def exDfNoAge : DataFrame := ⟨[⟨"Sex", Dtype.obj⟩], [[.str "F"]]⟩

/-- Criteria with an active age range. -/
def exFvAge : FilterVars := { age_range := some (0, 10) }

/-- Survival-analysis table whose only row has a missing duration. -/
def exDfKm : DataFrame :=
  ⟨[⟨"Time_To_Crisis", Dtype.i64⟩, ⟨"Crisis_Event", Dtype.i64⟩],
   [[.na, .int 1]]⟩

/-- Two-column table used by the export witness. -/
def exDfExport : DataFrame :=
  ⟨[⟨"Age", Dtype.i64⟩, ⟨"Sex", Dtype.obj⟩], [[.int 44, .str "F"]]⟩

/-! ## Stage lemmas for the filter engine -/

/-- The text stage keeps the column list. -/
theorem applyText_cols (df : DataFrame) (term : String) (d1 : DataFrame)
    (h : applyText df term = .ok d1) : d1.cols = df.cols := by
  unfold applyText at h
  by_cases ht : term = ""
  · rw [if_pos ht] at h
    injection h with h
    rw [← h]
  · rw [if_neg ht] at h
    rcases hobj : objIdxs df with _ | ⟨o, os⟩ <;> rw [hobj] at h
    · injection h with h
      rw [← h]
    · rcases hp : parseRegex term with e | pat <;> rw [hp] at h
      · exact absurd h (by simp)
      · injection h with h
        rw [← h]

/-- Membership in the rows after the text stage. -/
theorem applyText_mem (df : DataFrame) (term : String) (d1 : DataFrame)
    (h : applyText df term = .ok d1) (r : List CVal) :
    r ∈ d1.rows ↔ (r ∈ df.rows ∧ rowPassText df term r = true) := by
  unfold applyText at h
  unfold rowPassText
  by_cases ht : term = ""
  · rw [if_pos ht] at h
    injection h with h
    rw [← h, if_pos ht]
    simp
  · rw [if_neg ht] at h
    rw [if_neg ht]
    rcases hobj : objIdxs df with _ | ⟨o, os⟩ <;> rw [hobj] at h
    · injection h with h
      rw [← h]
      simp
    · rcases hp : parseRegex term with e | pat <;> rw [hp] at h
      · exact absurd h (by simp)
      · injection h with h
        rw [← h]
        simp [List.mem_filter]

/-- The age stage keeps the column list. -/
theorem applyAge_cols (df : DataFrame) (ar : Option (Int × Int)) (d2 : DataFrame)
    (h : applyAge df ar = .ok d2) : d2.cols = df.cols := by
  unfold applyAge at h
  rcases ar with _ | ⟨lo, hi⟩
  · injection h with h
    rw [← h]
  · rcases hidx : colIdxOf "Age" df.cols with _ | i <;> rw [hidx] at h
    · exact absurd h (by simp)
    · injection h with h
      rw [← h]

/-- Membership in the rows after the age stage. -/
theorem applyAge_mem (df : DataFrame) (ar : Option (Int × Int)) (d2 : DataFrame)
    (h : applyAge df ar = .ok d2) (r : List CVal) :
    r ∈ d2.rows ↔ (r ∈ df.rows ∧ rowPassAge df ar r = true) := by
  unfold applyAge at h
  unfold rowPassAge
  rcases ar with _ | ⟨lo, hi⟩
  · injection h with h
    rw [← h]
    simp
  · rcases hidx : colIdxOf "Age" df.cols with _ | i <;> rw [hidx] at h
    · exact absurd h (by simp)
    · injection h with h
      rw [← h]
      simp [List.mem_filter]

/-- The gender stage keeps the column list. -/
theorem applyGenders_cols (df : DataFrame) (sg : Option (List String))
    (d3 : DataFrame) (h : applyGenders df sg = .ok d3) : d3.cols = df.cols := by
  unfold applyGenders at h
  rcases sg with _ | sel
  · injection h with h
    rw [← h]
  · rcases hidx : colIdxOf "Sex" df.cols with _ | i <;> rw [hidx] at h
    · exact absurd h (by simp)
    · injection h with h
      rw [← h]

/-- Membership in the rows after the gender stage. -/
theorem applyGenders_mem (df : DataFrame) (sg : Option (List String))
    (d3 : DataFrame) (h : applyGenders df sg = .ok d3) (r : List CVal) :
    r ∈ d3.rows ↔ (r ∈ df.rows ∧ rowPassSex df sg r = true) := by
  unfold applyGenders at h
  unfold rowPassSex
  rcases sg with _ | sel
  · injection h with h
    rw [← h]
    simp
  · rcases hidx : colIdxOf "Sex" df.cols with _ | i <;> rw [hidx] at h
    · exact absurd h (by simp)
    · injection h with h
      rw [← h]
      simp [List.mem_filter]

/-- Row predicates of the age stage depend only on the column list. -/
theorem rowPassAge_congr (df df' : DataFrame) (hc : df.cols = df'.cols)
    (ar : Option (Int × Int)) (r : List CVal) :
    rowPassAge df ar r = rowPassAge df' ar r := by
  unfold rowPassAge
  rw [hc]

/-- Row predicates of the gender stage depend only on the column list. -/
theorem rowPassSex_congr (df df' : DataFrame) (hc : df.cols = df'.cols)
    (sg : Option (List String)) (r : List CVal) :
    rowPassSex df sg r = rowPassSex df' sg r := by
  unfold rowPassSex
  rw [hc]

/-- Inversion of a successful `apply_filters` run into its three stages. -/
theorem apply_filters_inv (df : DataFrame) (term : String) (fv : FilterVars)
    (out : DataFrame) (h : apply_filters df term fv = .ok out) :
    ∃ d1 d2, applyText df term = .ok d1 ∧ applyAge d1 fv.age_range = .ok d2 ∧
      applyGenders d2 fv.selected_genders = .ok out := by
  unfold apply_filters at h
  rcases h1 : applyText df term with e | d1 <;> rw [h1] at h
  · simp at h
  · dsimp only at h
    rcases h2 : applyAge d1 fv.age_range with e | d2 <;> rw [h2] at h
    · simp at h
    · dsimp only at h
      exact ⟨d1, d2, rfl, h2, h⟩

/-- Row-level reading of a successful text stage, as an existential over
the text columns. -/
theorem rowPassText_iff (df : DataFrame) (term : String) (r : List CVal)
    (hne : term ≠ "") :
    rowPassText df term r = true ↔
      ∃ pat, parseRegex term = .ok pat ∧
        ∃ i ∈ objIdxs df, reSearch pat (cellStr (r.getD i CVal.na)) = true := by
  unfold rowPassText
  rw [if_neg hne]
  rcases hobj : objIdxs df with _ | ⟨o, os⟩
  · simp
  · rcases hp : parseRegex term with e | pat
    · simp
    · simp [List.any_eq_true]

/-- C3: every row of the output of `apply_filters` is a row of the input
table, and with no active criterion (empty search term, no range or
categorical selection bound) the output is the input unchanged. -/
theorem claim_C3_filter_subset (df : DataFrame) (term : String)
    (fv : FilterVars) (out : DataFrame)
    (h : apply_filters df term fv = .ok out) :
    (∀ r ∈ out.rows, r ∈ df.rows) ∧
      apply_filters df "" noCriteria = .ok df := by
  constructor
  · intro r hr
    obtain ⟨d1, d2, h1, h2, h3⟩ := apply_filters_inv df term fv out h
    have m3 := applyGenders_mem d2 fv.selected_genders out h3 r
    have m2 := applyAge_mem d1 fv.age_range d2 h2 r
    have m1 := applyText_mem df term d1 h1 r
    exact (m1.mp ((m2.mp ((m3.mp hr).1)).1)).1
  · simp [apply_filters, applyText, applyAge, applyGenders, noCriteria]

/-- Witness for C3: the staff table passes through unchanged under empty
criteria, and the subset property holds there. -/
theorem claim_C3_witness :
    (∀ r ∈ exDfStaff.rows, r ∈ exDfStaff.rows) ∧
      apply_filters exDfStaff "" noCriteria = .ok exDfStaff :=
  claim_C3_filter_subset exDfStaff "" noCriteria exDfStaff (by decide)

/-- C4 counterexample: the search term "." is interpreted as a regular
expression, so the filter keeps the row "xyz" although "." is not a
case-insensitive substring of any text cell of that row, refuting the
substring reading of the claim. -/
theorem claim_C4_counterexample :
    apply_filters exDfNotes "." noCriteria = .ok exDfNotes ∧
    [CVal.str "xyz"] ∈ exDfNotes.rows ∧
    substrCI (cellStr (CVal.str "xyz")) "." = false := by decide

/-- C4 as amended: for a non-empty search term the free-text filter keeps
exactly the rows in which the term, read as a case-insensitive regular
expression, matches somewhere in the string representation of at least
one text-typed column; an empty term keeps every row. -/
theorem claim_C4_regex_semantics (df : DataFrame) (term : String)
    (out : DataFrame) (hne : term ≠ "")
    (h : apply_filters df term noCriteria = .ok out) (r : List CVal) :
    (r ∈ out.rows ↔ r ∈ df.rows ∧
      ∃ pat, parseRegex term = .ok pat ∧
        ∃ i ∈ objIdxs df, reSearch pat (cellStr (r.getD i CVal.na)) = true) ∧
    apply_filters df "" noCriteria = .ok df := by
  constructor
  · obtain ⟨d1, d2, h1, h2, h3⟩ := apply_filters_inv df term noCriteria out h
    have e2 : d2 = d1 := by
      unfold applyAge at h2
      injection h2 with h2
      rw [h2]
    subst e2
    have e3 : out = d2 := by
      unfold applyGenders at h3
      injection h3 with h3
      rw [h3]
    subst e3
    rw [applyText_mem df term out h1 r, rowPassText_iff df term r hne]
  · simp [apply_filters, applyText, applyAge, applyGenders, noCriteria]

/-- Witness for C4 at the staff table and the term "nur". -/
theorem claim_C4_witness :
    (exRowStaff ∈ exDfStaff.rows ↔ exRowStaff ∈ exDfStaff.rows ∧
      ∃ pat, parseRegex "nur" = .ok pat ∧
        ∃ i ∈ objIdxs exDfStaff,
          reSearch pat (cellStr (exRowStaff.getD i CVal.na)) = true) ∧
    apply_filters exDfStaff "" noCriteria = .ok exDfStaff :=
  claim_C4_regex_semantics exDfStaff "nur" exDfStaff (by decide) (by decide)
    exRowStaff

/-- C5 counterexample: with an active Healthcare_Role selection of
{"Doctor"}, the Nurse row is still in the output of `apply_filters`,
although its Healthcare_Role value is not in the selected set — the role
criterion is never applied. -/
theorem claim_C5_counterexample :
    apply_filters exDfStaff "" exFvRoles = .ok exDfStaff ∧
    exRowStaff ∈ exDfStaff.rows ∧
    exFvRoles.selected_roles = some ["Doctor"] ∧
    dfCell exDfStaff exRowStaff "Healthcare_Role" = some (.str "Nurse") ∧
    cvalIsin (.str "Nurse") ["Doctor"] = false := by decide

/-- C5 as amended: on a well-formed table, a row is in the output iff it
is an input row passing the text search, the Age range (when active) and
the Sex membership (when active); the role, department, risk-level and
crisis criteria impose no constraint at all, as the output depends only
on the `age_range` and `selected_genders` fields of the criteria. -/
theorem claim_C5_conjunction_age_sex_only (df : DataFrame) (term : String)
    (fv : FilterVars) (out : DataFrame) (_hwf : WFTable df = true)
    (h : apply_filters df term fv = .ok out) (r : List CVal) :
    (r ∈ out.rows ↔ r ∈ df.rows ∧ rowPassText df term r = true ∧
      rowPassAge df fv.age_range r = true ∧
      rowPassSex df fv.selected_genders r = true) ∧
    apply_filters df term fv =
      apply_filters df term
        { age_range := fv.age_range, selected_genders := fv.selected_genders } := by
  constructor
  · obtain ⟨d1, d2, h1, h2, h3⟩ := apply_filters_inv df term fv out h
    have c1 := applyText_cols df term d1 h1
    have c2 := applyAge_cols d1 fv.age_range d2 h2
    have m1 := applyText_mem df term d1 h1 r
    have m2 := applyAge_mem d1 fv.age_range d2 h2 r
    have m3 := applyGenders_mem d2 fv.selected_genders out h3 r
    rw [rowPassAge_congr d1 df c1 fv.age_range r] at m2
    rw [rowPassSex_congr d2 df (c2.trans c1) fv.selected_genders r] at m3
    rw [m3, m2, m1]
    tauto
  · rfl

/-- Witness for C5 at the staff table with the ignored role criterion. -/
theorem claim_C5_witness :
    (exRowStaff ∈ exDfStaff.rows ↔ exRowStaff ∈ exDfStaff.rows ∧
      rowPassText exDfStaff "nur" exRowStaff = true ∧
      rowPassAge exDfStaff exFvRoles.age_range exRowStaff = true ∧
      rowPassSex exDfStaff exFvRoles.selected_genders exRowStaff = true) ∧
    apply_filters exDfStaff "nur" exFvRoles =
      apply_filters exDfStaff "nur"
        { age_range := exFvRoles.age_range,
          selected_genders := exFvRoles.selected_genders } :=
  claim_C5_conjunction_age_sex_only exDfStaff "nur" exFvRoles exDfStaff
    (by decide) (by decide) exRowStaff

/-- Totality of the text stage when the term parses (or no text column
forces a compile). -/
theorem applyText_total (df : DataFrame) (term : String)
    (hT : term ≠ "" → objIdxs df ≠ [] → exceptOk (parseRegex term) = true) :
    ∃ d1, applyText df term = .ok d1 := by
  unfold applyText
  by_cases ht : term = ""
  · exact ⟨df, by rw [if_pos ht]⟩
  · rw [if_neg ht]
    rcases hobj : objIdxs df with _ | ⟨o, os⟩
    · exact ⟨_, rfl⟩
    · rcases hp : parseRegex term with e | pat
      · have hok := hT ht (by rw [hobj]; simp)
        rw [hp] at hok
        exact absurd hok (by simp [exceptOk])
      · exact ⟨_, rfl⟩

/-- Totality of the age stage when Age is present whenever needed. -/
theorem applyAge_total (df : DataFrame) (ar : Option (Int × Int))
    (hA : ar.isSome = true → hasCol df "Age" = true) :
    ∃ d2, applyAge df ar = .ok d2 := by
  unfold applyAge
  rcases ar with _ | ⟨lo, hi⟩
  · exact ⟨df, rfl⟩
  · have hc := hA rfl
    unfold hasCol at hc
    rcases hidx : colIdxOf "Age" df.cols with _ | i
    · rw [hidx] at hc
      exact absurd hc (by simp)
    · exact ⟨_, rfl⟩

/-- Totality of the gender stage when Sex is present whenever needed. -/
theorem applyGenders_total (df : DataFrame) (sg : Option (List String))
    (hS : sg.isSome = true → hasCol df "Sex" = true) :
    ∃ d3, applyGenders df sg = .ok d3 := by
  unfold applyGenders
  rcases sg with _ | sel
  · exact ⟨df, rfl⟩
  · have hc := hS rfl
    unfold hasCol at hc
    rcases hidx : colIdxOf "Sex" df.cols with _ | i
    · rw [hidx] at hc
      exact absurd hc (by simp)
    · exact ⟨_, rfl⟩

/-- C6 counterexample: with the age-range criterion active and no Age
column in the table, `apply_filters` raises (KeyError) instead of
returning a result, refuting the never-raises claim. -/
theorem claim_C6_counterexample :
    apply_filters exDfNoAge "" exFvAge = .error "KeyError: Age" := by decide

/-- C6 as amended: `apply_filters` returns a result whenever each active
criterion's column is present in the table (and the search term is empty,
or parses, or there is no text column to search); an active age-range or
gender criterion over an absent Age or Sex column instead raises a
KeyError rather than being skipped. -/
theorem claim_C6_total_when_columns_present (df : DataFrame) (term : String)
    (fv : FilterVars)
    (hA : fv.age_range.isSome = true → hasCol df "Age" = true)
    (hS : fv.selected_genders.isSome = true → hasCol df "Sex" = true)
    (hT : term ≠ "" → objIdxs df ≠ [] → exceptOk (parseRegex term) = true) :
    ∃ out, apply_filters df term fv = .ok out := by
  obtain ⟨d1, h1⟩ := applyText_total df term hT
  have c1 := applyText_cols df term d1 h1
  obtain ⟨d2, h2⟩ := applyAge_total d1 fv.age_range
    (by intro hs; rw [hasCol, c1]; exact hA hs)
  have c2 := applyAge_cols d1 fv.age_range d2 h2
  obtain ⟨d3, h3⟩ := applyGenders_total d2 fv.selected_genders
    (by intro hs; rw [hasCol, c2, c1]; exact hS hs)
  refine ⟨d3, ?_⟩
  unfold apply_filters
  rw [h1]
  dsimp only
  rw [h2]
  dsimp only
  exact h3

/-- Witness for C6 at the staff table with an inactive age criterion and
a parsing term. -/
theorem claim_C6_witness :
    ∃ out, apply_filters exDfStaff "nur" exFvRoles = .ok out :=
  claim_C6_total_when_columns_present exDfStaff "nur" exFvRoles (by decide)
    (by decide) (by decide)

/-- C7 counterexample: with both columns present and the only row missing
its duration, the code fits on that row anyway (no drop of missing
values, no insufficient-data report), while the claim requires the
insufficient-data outcome here. -/
theorem claim_C7_counterexample :
    display_kaplan_meier_analysis exDfKm = .fitted [CVal.na] [CVal.int 1] ∧
    kmClaimResult exDfKm = .unavailable ∧
    display_kaplan_meier_analysis exDfKm ≠ kmClaimResult exDfKm := by decide

/-- C7 as amended: the Kaplan-Meier branch checks only that both columns
are present — absence of either yields the unavailable warning and no
fit; when both are present it fits the estimator on the two full columns,
one value per row of the input, with no missing-value dropping and no
emptiness check. -/
theorem claim_C7_presence_check_only (df : DataFrame) :
    (display_kaplan_meier_analysis df = .unavailable ↔
      ¬(hasCol df "Time_To_Crisis" = true ∧ hasCol df "Crisis_Event" = true)) ∧
    (hasCol df "Time_To_Crisis" = true → hasCol df "Crisis_Event" = true →
      display_kaplan_meier_analysis df =
        .fitted (colValues df "Time_To_Crisis") (colValues df "Crisis_Event") ∧
      (colValues df "Time_To_Crisis").length = df.rows.length ∧
      (colValues df "Crisis_Event").length = df.rows.length) := by
  unfold display_kaplan_meier_analysis
  by_cases hc : hasCol df "Time_To_Crisis" = true ∧ hasCol df "Crisis_Event" = true
  · rw [if_pos hc]
    refine ⟨by simp [hc], fun _ _ => ⟨rfl, ?_, ?_⟩⟩
    · simp [colValues]
    · simp [colValues]
  · rw [if_neg hc]
    exact ⟨by simp [hc], fun h1 h2 => absurd ⟨h1, h2⟩ hc⟩

/-- Witness for C7 at the one-row survival table. -/
theorem claim_C7_witness :
    (display_kaplan_meier_analysis exDfKm = .unavailable ↔
      ¬(hasCol exDfKm "Time_To_Crisis" = true ∧
        hasCol exDfKm "Crisis_Event" = true)) ∧
    (hasCol exDfKm "Time_To_Crisis" = true →
      hasCol exDfKm "Crisis_Event" = true →
      display_kaplan_meier_analysis exDfKm =
        .fitted (colValues exDfKm "Time_To_Crisis")
          (colValues exDfKm "Crisis_Event") ∧
      (colValues exDfKm "Time_To_Crisis").length = exDfKm.rows.length ∧
      (colValues exDfKm "Crisis_Event").length = exDfKm.rows.length) :=
  claim_C7_presence_check_only exDfKm

/-! ## Lemmas for the export restriction -/

/-- A name occurring among the column names has a position. -/
theorem colIdxOf_mem (cs : List Column) (k : String)
    (hk : k ∈ cs.map (·.name)) : ∃ i, colIdxOf k cs = some i := by
  induction cs with
  | nil => simp at hk
  | cons c cs ih =>
    by_cases hc : c.name = k
    · exact ⟨0, by simp [colIdxOf, hc]⟩
    · have hk' : k ∈ cs.map (·.name) := by
        rcases List.mem_cons.mp hk with h | h
        · exact absurd h.symm hc
        · exact h
      obtain ⟨i, hi⟩ := ih hk'
      exact ⟨i + 1, by simp [colIdxOf, hc, hi]⟩

/-- The column found at a resolved position carries the looked-up name. -/
theorem colIdxOf_getD_name (cs : List Column) (k : String) (i : Nat)
    (h : colIdxOf k cs = some i) : (cs.getD i ⟨"", .obj⟩).name = k := by
  induction cs generalizing i with
  | nil => simp [colIdxOf] at h
  | cons c cs ih =>
    by_cases hc : c.name = k
    · rw [colIdxOf, if_pos hc] at h
      injection h with h
      rw [← h]
      simpa using hc
    · rw [colIdxOf, if_neg hc] at h
      rcases hj : colIdxOf k cs with _ | j <;> rw [hj] at h
      · simp at h
      · simp only [Option.map_some'] at h
        injection h with h
        rw [← h]
        simpa using ih j hj

/-- Reading through `dfCell` at a resolved position is positional. -/
theorem dfCell_getD (df : DataFrame) (r : List CVal) (k : String) (i : Nat)
    (h : colIdxOf k df.cols = some i) :
    (dfCell df r k).getD CVal.na = r.getD i CVal.na := by
  unfold dfCell
  rw [h]
  simp [List.getD_eq_getElem?_getD, List.get?_eq_getElem?]

/-- Successful resolution of a selected-column list, with the recovered
names and the positional reading of every row. -/
theorem colIdxList_ok (df : DataFrame) (sel : List String)
    (h : ∀ k ∈ sel, k ∈ df.cols.map (·.name)) :
    ∃ idxs, colIdxList df.cols sel = some idxs ∧
      (idxs.map fun i => (df.cols.getD i ⟨"", .obj⟩).name) = sel ∧
      ∀ r : List CVal, (idxs.map fun i => r.getD i CVal.na) =
        sel.map fun k => (dfCell df r k).getD CVal.na := by
  induction sel with
  | nil => exact ⟨[], rfl, rfl, fun r => rfl⟩
  | cons k ks ih =>
    obtain ⟨i, hi⟩ := colIdxOf_mem df.cols k (h k (by simp))
    obtain ⟨idxs, h1, h2, h3⟩ := ih fun k' hk' => h k' (by simp [hk'])
    refine ⟨i :: idxs, ?_, ?_, ?_⟩
    · rw [colIdxList, hi, h1]
    · simp only [List.map_cons, h2, colIdxOf_getD_name df.cols k i hi]
    · intro r
      simp only [List.map_cons, h3 r, dfCell_getD df r k i hi]

/-- C8 counterexample: JSON is offered only by the shadowed first
definition of `export_data`; the effective (later) definition offers CSV
and Excel only and produces nothing for a JSON request. -/
theorem claim_C8_counterexample :
    ("JSON" ∈ export_data_v1_formats) ∧ ("JSON" ∉ export_data_formats) ∧
    export_data (stringifyDF exDfExport) "JSON" = none := by decide

/-- C8 as amended: the effective export operation offers CSV and Excel
(not JSON), and what it serializes is the current filtered view
restricted to the selected column subset with every cell stringified —
the frame `display_filtered_results` builds and passes in. -/
theorem claim_C8_formats_and_restriction (df : DataFrame) (sel : List String)
    (h : ∀ k ∈ sel, k ∈ df.cols.map (·.name)) :
    export_data_formats = ["CSV", "Excel"] ∧
    ∃ v, display_view df sel = .ok v ∧
      v.cols.map (·.name) = sel ∧
      v.rows = df.rows.map (fun r => sel.map fun k =>
        CVal.str (cellStr ((dfCell df r k).getD CVal.na))) ∧
      export_data v "CSV" = some (.csv (to_csv v)) ∧
      export_data v "JSON" = none := by
  refine ⟨rfl, ?_⟩
  obtain ⟨idxs, h1, h2, h3⟩ := colIdxList_ok df sel h
  refine ⟨stringifyDF ⟨idxs.map fun i => df.cols.getD i ⟨"", .obj⟩,
      df.rows.map fun r => idxs.map fun i => r.getD i CVal.na⟩,
    ?_, ?_, ?_, rfl, rfl⟩
  · unfold display_view restrictCols
    rw [h1]
  · unfold stringifyDF
    simp only [List.map_map]
    exact h2
  · unfold stringifyDF
    simp only [List.map_map]
    refine List.map_congr_left fun r _ => ?_
    have hm := congrArg (List.map fun v => CVal.str (cellStr v)) (h3 r)
    rw [List.map_map, List.map_map] at hm
    simpa [Function.comp] using hm

/-- Witness for C8: restricting the two-column table to its Sex column. -/
theorem claim_C8_witness :
    export_data_formats = ["CSV", "Excel"] ∧
    ∃ v, display_view exDfExport ["Sex"] = .ok v ∧
      v.cols.map (·.name) = ["Sex"] ∧
      v.rows = exDfExport.rows.map (fun r => ["Sex"].map fun k =>
        CVal.str (cellStr ((dfCell exDfExport r k).getD CVal.na))) ∧
      export_data v "CSV" = some (.csv (to_csv v)) ∧
      export_data v "JSON" = none :=
  claim_C8_formats_and_restriction exDfExport ["Sex"] (by decide)

/-! ## Lemmas for insertion and loading -/

/-- A successful dict lookup means the binding is in the dict. -/
theorem lookupField_mem (d : EntryDict) (k : String) (v : CVal)
    (h : lookupField d k = some v) : (k, v) ∈ d := by
  induction d with
  | nil => simp [lookupField] at h
  | cons kv rest ih =>
    obtain ⟨k', v'⟩ := kv
    unfold lookupField at h
    by_cases hk : k' = k
    · rw [if_pos hk] at h
      injection h with h
      rw [hk, h]
      exact List.mem_cons_self _ _
    · rw [if_neg hk] at h
      exact List.mem_cons_of_mem _ (ih h)

/-- Loaded rows of a store extended by one entry. -/
theorem loadRowsAux_append (db : DBState) (d : EntryDict) (i : Nat) :
    loadRowsAux i (db ++ [d]) =
      loadRowsAux i db ++ [rowOfEntry (i + db.length) d] := by
  induction db generalizing i with
  | nil => simp [loadRowsAux]
  | cons e es ih =>
    have harith : i + 1 + es.length = i + (es.length + 1) := by omega
    simp only [List.cons_append, loadRowsAux, List.append_eq, ih (i + 1),
      harith, List.length_cons]

/-- Position and value of a named column in a row built per-name. -/
theorem colIdxOf_map_value (cs : List Column) (g : String → CVal) (k : String)
    (hk : k ∈ cs.map (·.name)) :
    ∃ i, colIdxOf k cs = some i ∧
      (cs.map fun c => g c.name).get? i = some (g k) := by
  induction cs with
  | nil => simp at hk
  | cons c cs ih =>
    by_cases hc : c.name = k
    · exact ⟨0, by simp [colIdxOf, hc], by simp [hc]⟩
    · have hk' : k ∈ cs.map (·.name) := by
        rcases List.mem_cons.mp hk with h | h
        · exact absurd h.symm hc
        · exact h
      obtain ⟨i, h1, h2⟩ := ih hk'
      exact ⟨i + 1, by simp [colIdxOf, hc, h1], by simpa using h2⟩

/-- Reading a loaded row by column name recovers the stored dict value
(NULL for an absent key). -/
theorem dfCell_loaded (entries : DBState) (d : EntryDict) (n : Nat)
    (k : String) (hk : k ∈ schemaDataCols) :
    dfCell (load_data (.ok entries)) (rowOfEntry n d) k =
      some ((lookupField d k).getD CVal.na) := by
  have hid : ("id" : String) ∉ schemaDataCols := by decide
  have hkid : ¬(("id" : String) = k) := fun he => hid (he ▸ hk)
  obtain ⟨i, h1, h2⟩ := colIdxOf_map_value loadDataCols
    (fun nm => (lookupField d nm).getD CVal.na) k
    (by simpa [schemaDataCols] using hk)
  have hcons : colIdxOf k loadCols = some (i + 1) := by
    unfold loadCols colIdxOf
    rw [if_neg (by simpa using hkid), h1]
    rfl
  unfold dfCell
  dsimp only [load_data]
  rw [hcons]
  unfold rowOfEntry
  dsimp only
  rw [List.get?_cons_succ]
  have hmap : schemaDataCols.map (fun c => (lookupField d c).getD CVal.na) =
      loadDataCols.map fun c => (lookupField d c.name).getD CVal.na := by
    unfold schemaDataCols
    rw [List.map_map]
    rfl
  rw [hmap]
  exact h2

/-- C1: a record whose Age is below 18 or above 100 fails validation with
the age message, and `insert_entry` returns failure leaving the stored
table unchanged. -/
theorem claim_C1_age_out_of_range_rejected (d : EntryDict) (db : DBState)
    (a : Int) (hAge : lookupField d "Age" = some (.int a))
    (hout : a < 18 ∨ 100 < a) :
    validate_entry_data d = (false, "Age must be between 18 and 100") ∧
    insert_entry d db = (false, db) := by
  have hv : validate_entry_data d = (false, "Age must be between 18 and 100") := by
    unfold validate_entry_data
    rw [hAge]
    dsimp only
    rw [if_pos hout]
  exact ⟨hv, by simp [insert_entry, hv]⟩

/-- Witness for C1 at the Age-12 record over a one-row store. -/
theorem claim_C1_witness :
    validate_entry_data exEntryYoung =
      (false, "Age must be between 18 and 100") ∧
    insert_entry exEntryYoung [exEntryOk] = (false, [exEntryOk]) :=
  claim_C1_age_out_of_range_rejected exEntryYoung [exEntryOk] 12 (by decide)
    (by decide)

/-- C2: a record with Age in [18, 100] and truthy required fields (keys
within the schema) inserts successfully, and a subsequent load contains a
row agreeing with the inserted record on every one of its fields — the
row differing only in the auto-assigned id column. -/
theorem claim_C2_valid_insert_retrievable (d : EntryDict) (db : DBState)
    (a : Int) (hAge : lookupField d "Age" = some (.int a))
    (hlo : 18 ≤ a) (hhi : a ≤ 100)
    (hSex : truthy (lookupField d "Sex") = true)
    (hEmp : truthy (lookupField d "Employment_Status") = true)
    (hRole : truthy (lookupField d "Healthcare_Role") = true)
    (hKeys : d.all (fun kv => schemaDataCols.contains kv.1) = true) :
    insert_entry d db = (true, db ++ [d]) ∧
    ∃ row ∈ (load_data (.ok (db ++ [d]))).rows,
      ∀ k v, lookupField d k = some v →
        dfCell (load_data (.ok (db ++ [d]))) row k = some v := by
  have hAgeT : truthy (lookupField d "Age") = true := by
    rw [hAge]
    simp only [truthy, decide_eq_true_eq, ne_eq]
    omega
  have hval : validate_entry_data d = (true, "") := by
    unfold validate_entry_data
    rw [hAge]
    dsimp only
    rw [if_neg (by omega)]
    simp [firstMissing, requiredFields, hAgeT, hSex, hEmp, hRole]
  have hins : insert_entry d db = (true, db ++ [d]) := by
    unfold insert_entry
    rw [hval, if_pos rfl, if_pos hKeys]
  refine ⟨hins, rowOfEntry db.length d, ?_, ?_⟩
  · show rowOfEntry db.length d ∈ (load_data (.ok (db ++ [d]))).rows
    dsimp only [load_data]
    rw [loadRowsAux_append db d 0]
    simp
  · intro k v hv
    have hkmem : k ∈ schemaDataCols := by
      have hm := lookupField_mem d k v hv
      have hall := List.all_eq_true.mp hKeys _ hm
      simpa using hall
    rw [dfCell_loaded (db ++ [d]) d db.length k hkmem, hv]
    rfl

/-- Witness for C2: inserting the valid record into the empty store and
reading it back. -/
theorem claim_C2_witness :
    insert_entry exEntryOk [] = (true, [] ++ [exEntryOk]) ∧
    ∃ row ∈ (load_data (.ok ([] ++ [exEntryOk]))).rows,
      ∀ k v, lookupField exEntryOk k = some v →
        dfCell (load_data (.ok ([] ++ [exEntryOk]))) row k = some v :=
  claim_C2_valid_insert_retrievable exEntryOk [] 30 (by decide) (by decide)
    (by decide) (by decide) (by decide) (by decide) (by decide)

/-- C9 counterexample: a failed load and an empty-database load are both
row-empty, but they differ as return values — the empty-database load
carries the schema's column headers while the failed load carries none —
so the two are distinguishable by the return value alone. -/
theorem claim_C9_counterexample :
    load_data (.ok []) ≠ load_data (.error "connection error") ∧
    (load_data (.ok [])).rows = [] ∧
    (load_data (.ok [])).cols ≠ [] ∧
    (load_data (.error "connection error")).cols = [] := by decide

/-- C9 as amended: every storage failure makes `load_data` return the
empty `pd.DataFrame()` instead of propagating the exception, and a caller
checking only row emptiness cannot tell that result from an empty
database — though the column lists differ. -/
theorem claim_C9_failure_yields_empty (e : String) :
    load_data (.error e) = emptyDataFrame ∧
    (load_data (.error e)).rows = [] ∧ (load_data (.ok [])).rows = [] :=
  ⟨rfl, rfl, rfl⟩

/-- Witness for C9 at a concrete error message. -/
theorem claim_C9_witness :
    load_data (.error "boom") = emptyDataFrame ∧
    (load_data (.error "boom")).rows = [] ∧ (load_data (.ok [])).rows = [] :=
  claim_C9_failure_yields_empty "boom"

/-- C10: every invocation of the recent-entries management operation
takes the error branch — the fetch helper's name is unbound at its call
site — so the edit-and-replace through `update_database_entries` is
unreachable there and the stored table is returned unchanged. -/
theorem claim_C10_recent_entries_unreachable (db : DBState)
    (edits : List EntryDict) (save : Bool) :
    display_recent_entries_management db edits save = (.errorLoading, db) ∧
    localsAtCall.contains "get_latest_entries" = false := by
  refine ⟨?_, by decide⟩
  unfold display_recent_entries_management
  rw [if_neg (by decide)]

/-- Witness for C10 over a one-row store with pending edits and Save
pressed. -/
theorem claim_C10_witness :
    display_recent_entries_management [exEntryOk] [] true =
      (.errorLoading, [exEntryOk]) ∧
    localsAtCall.contains "get_latest_entries" = false :=
  claim_C10_recent_entries_unreachable [exEntryOk] [] true
